import Mathlib

/-!
Verification of the matching engine of the Book Discovery App
(src/book_search_app.py).  Strings are modelled as `List Char`; the
Python string operations used by the code (`lower`, `strip`, the `in`
containment operator, `==`/`!=` comparison) are embedded explicitly.
Only ASCII case matters in the catalog data, so `lower` is modelled by
`Char.toLower` (ASCII lowering), and `strip` removes the ASCII
whitespace characters Python strips.
-/

/-- Convert a Lean string literal to the `List Char` representation used
throughout this development. -/
def str (s : String) : List Char :=
  s.data

/-- The characters removed by Python `str.strip()` (ASCII fragment). -/
def pyIsSpace (c : Char) : Bool :=
  c == ' ' || c == '\t' || c == '\n' || c == '\r' || c == '\x0b' || c == '\x0c'

/-- Python `str.lower()` (ASCII case mapping, which covers the catalog data). -/
def pyLower (s : List Char) : List Char :=
  s.map Char.toLower

/-- Python `str.strip()`: remove leading and trailing whitespace. -/
def pyStrip (s : List Char) : List Char :=
  ((s.dropWhile pyIsSpace).reverse.dropWhile pyIsSpace).reverse

/-- Does `n` occur at the start of `h`?  Helper for the containment test. -/
def leadsWith : List Char → List Char → Bool
  | [], _ => true
  | _ :: _, [] => false
  | a :: as, b :: bs => a == b && leadsWith as bs

/-- Python's `n in h` substring containment operator on strings. -/
def containsSub (n : List Char) : List Char → Bool
  | [] => leadsWith n []
  | b :: bs => leadsWith n (b :: bs) || containsSub n bs

/-- The mathematical substring relation: `n` occurs contiguously in `h`. -/
def occursIn (n h : List Char) : Prop :=
  ∃ p s, p ++ n ++ s = h

/-- A catalog row as displayed by the search and show-all tables:
title, author, genre. -/
structure BookRecord where
  title : List Char
  author : List Char
  genre : List Char
deriving DecidableEq, Repr

/-- A row of the recommendation-mode catalog copy, which additionally
carries a description field. -/
structure RecBook where
  title : List Char
  author : List Char
  genre : List Char
  description : List Char
deriving DecidableEq, Repr

/-- The catalog literal inside `search_books`
(src/book_search_app.py lines 440-456). -/
def all_books_search : List BookRecord :=
  [ ⟨ str "The Great Gatsby", str "F. Scott Fitzgerald", str "Classic Literature"⟩,
    ⟨ str "1984", str "George Orwell", str "Dystopian Fiction"⟩,
    ⟨ str "Pride and Prejudice", str "Jane Austen", str "Romance"⟩,
    ⟨ str "The Hobbit", str "J.R.R. Tolkien", str "Fantasy"⟩,
    ⟨ str "Dune", str "Frank Herbert", str "Science Fiction"⟩,
    ⟨ str "To Kill a Mockingbird", str "Harper Lee", str "Classic Literature"⟩,
    ⟨ str "The Catcher in the Rye", str "J.D. Salinger", str "Classic Literature"⟩,
    ⟨ str "The Lord of the Rings", str "J.R.R. Tolkien", str "Fantasy"⟩,
    ⟨ str "Brave New World", str "Aldous Huxley", str "Dystopian Fiction"⟩,
    ⟨ str "Jane Eyre", str "Charlotte Brontë", str "Gothic Fiction"⟩,
    ⟨ str "The Chronicles of Narnia", str "C.S. Lewis", str "Fantasy"⟩,
    ⟨ str "Foundation", str "Isaac Asimov", str "Science Fiction"⟩,
    ⟨ str "Fahrenheit 451", str "Ray Bradbury", str "Dystopian Fiction"⟩,
    ⟨ str "Little Women", str "Louisa May Alcott", str "Classic Literature"⟩,
    ⟨ str "The Handmaid\x27s Tale", str "Margaret Atwood", str "Dystopian Fiction"⟩ ]

/-- The catalog literal inside `show_all_books`
(src/book_search_app.py lines 597-613). -/
def all_books_show : List BookRecord :=
  [ ⟨ str "The Great Gatsby", str "F. Scott Fitzgerald", str "Classic Literature"⟩,
    ⟨ str "1984", str "George Orwell", str "Dystopian Fiction"⟩,
    ⟨ str "Pride and Prejudice", str "Jane Austen", str "Romance"⟩,
    ⟨ str "The Hobbit", str "J.R.R. Tolkien", str "Fantasy"⟩,
    ⟨ str "Dune", str "Frank Herbert", str "Science Fiction"⟩,
    ⟨ str "To Kill a Mockingbird", str "Harper Lee", str "Classic Literature"⟩,
    ⟨ str "The Catcher in the Rye", str "J.D. Salinger", str "Classic Literature"⟩,
    ⟨ str "The Lord of the Rings", str "J.R.R. Tolkien", str "Fantasy"⟩,
    ⟨ str "Brave New World", str "Aldous Huxley", str "Dystopian Fiction"⟩,
    ⟨ str "Jane Eyre", str "Charlotte Brontë", str "Gothic Fiction"⟩,
    ⟨ str "The Chronicles of Narnia", str "C.S. Lewis", str "Fantasy"⟩,
    ⟨ str "Foundation", str "Isaac Asimov", str "Science Fiction"⟩,
    ⟨ str "Fahrenheit 451", str "Ray Bradbury", str "Dystopian Fiction"⟩,
    ⟨ str "Little Women", str "Louisa May Alcott", str "Classic Literature"⟩,
    ⟨ str "The Handmaid\x27s Tale", str "Margaret Atwood", str "Dystopian Fiction"⟩ ]

/-- The catalog literal inside `fetch_recommendations`, which carries a
fourth, description column (src/book_search_app.py lines 369-385). -/
def all_books_rec : List RecBook :=
  [ ⟨ str "The Great Gatsby", str "F. Scott Fitzgerald", str "Classic Literature",
      str "A novel about the decadence of the Jazz Age."⟩,
    ⟨ str "1984", str "George Orwell", str "Dystopian Fiction",
      str "A dark, satirical novel about totalitarian surveillance."⟩,
    ⟨ str "Pride and Prejudice", str "Jane Austen", str "Romance",
      str "A witty exploration of love and marriage in early 19th-century England."⟩,
    ⟨ str "The Hobbit", str "J.R.R. Tolkien", str "Fantasy",
      str "An epic adventure of a hobbit\x27s journey through Middle-earth."⟩,
    ⟨ str "Dune", str "Frank Herbert", str "Science Fiction",
      str "A complex narrative of politics, religion, and ecology on a desert planet."⟩,
    ⟨ str "To Kill a Mockingbird", str "Harper Lee", str "Classic Literature",
      str "A powerful story of racial injustice and moral growth."⟩,
    ⟨ str "The Catcher in the Rye", str "J.D. Salinger", str "Classic Literature",
      str "A novel about teenage alienation and angst."⟩,
    ⟨ str "The Lord of the Rings", str "J.R.R. Tolkien", str "Fantasy",
      str "An epic high-fantasy trilogy about the struggle against evil."⟩,
    ⟨ str "Brave New World", str "Aldous Huxley", str "Dystopian Fiction",
      str "A novel exploring a technologically advanced, but emotionally sterile society."⟩,
    ⟨ str "Jane Eyre", str "Charlotte Brontë", str "Gothic Fiction",
      str "A novel following the emotions and experiences of its eponymous heroine."⟩,
    ⟨ str "The Chronicles of Narnia", str "C.S. Lewis", str "Fantasy",
      str "A series of seven fantasy novels about adventures in the magical land of Narnia."⟩,
    ⟨ str "Foundation", str "Isaac Asimov", str "Science Fiction",
      str "A science fiction saga about the fall and rebirth of a galactic civilization."⟩,
    ⟨ str "Fahrenheit 451", str "Ray Bradbury", str "Dystopian Fiction",
      str "A novel about a future where books are outlawed and burned."⟩,
    ⟨ str "Little Women", str "Louisa May Alcott", str "Classic Literature",
      str "A novel about the lives of four sisters during the American Civil War."⟩,
    ⟨ str "The Handmaid\x27s Tale", str "Margaret Atwood", str "Dystopian Fiction",
      str "A dystopian novel about women\x27s rights and reproductive freedom."⟩ ]

/-- The normalised query computed by `search_books`:
`self.search_input.text().lower().strip()` (line 428). -/
def search_query (query : List Char) : List Char :=
  pyStrip (pyLower query)

/-- `search_books` (src/book_search_app.py lines 413-483): if the
normalised query is empty, show all books (the `show_all_books` literal);
otherwise keep the catalog rows whose lower-cased title, author or genre
contains the query. -/
def search_books (query : List Char) : List BookRecord :=
  if search_query query = [] then
    all_books_show
  else
    all_books_search.filter (fun book =>
      containsSub (search_query query) (pyLower book.title) ||
      containsSub (search_query query) (pyLower book.author) ||
      containsSub (search_query query) (pyLower book.genre))

/-- `fetch_recommendations` (src/book_search_app.py lines 348-411): keep
rows whose genre equals the current genre and whose title differs from
the current title; if none qualify, fall back to
`show_default_recommendations`, which clears the table (an empty result);
otherwise display the first 5 qualifying rows. -/
def fetch_recommendations (current_title current_genre : List Char) : List RecBook :=
  let genre_recommendations := all_books_rec.filter (fun book =>
    book.genre == current_genre && book.title != current_title)
  if genre_recommendations = [] then
    []
  else
    genre_recommendations.take 5

/-- The description text stored for the key "1984" in `view_book_details`
(src/book_search_app.py lines 522-529, adjacent literals concatenated). -/
def desc_1984 : List Char :=
  str "A dystopian social science fiction novel that follows Winston Smith, a disillusioned citizen who dreams of rebellion against the totalitarian government of Oceania. Written in 1949, Orwell\x27s masterpiece presents a haunting vision of a future marked by perpetual war, omnipresent surveillance, and the manipulation of history and language."

/-- The `descriptions` dictionary of `view_book_details`
(src/book_search_app.py lines 518-553), as an association list in source
order; its keys are distinct so first-match lookup models `dict.get`. -/
def descriptions : List (List Char × List Char) :=
  [ ( str "The Great Gatsby",
      str "Set in the summer of 1922 on Long Island, New York, this timeless story follows the mysterious millionaire Jay Gatsby and his obsession with the beautiful Daisy Buchanan. Considered F. Scott Fitzgerald\x27s magnum opus, The Great Gatsby explores themes of decadence, idealism, social upheaval, and excess, creating a portrait of the Jazz Age that has been described as a cautionary tale regarding the American Dream."),
    ( str "1984", desc_1984),
    ( str "Pride and Prejudice",
      str "A romantic novel following the emotional development of Elizabeth Bennet, who learns the error of making hasty judgments and comes to appreciate the difference between superficial goodness and actual goodness. Set in early 19th-century England, the novel explores themes of love, marriage, social class, and character."),
    ( str "The Hobbit",
      str "A fantasy novel that follows the quest of home-loving hobbit Bilbo Baggins to win a share of the treasure guarded by Smaug the dragon. His journey takes him from light-hearted beginnings in the Shire to more sinister experiences. A precursor to The Lord of the Rings, this beloved classic has enchanted readers for generations."),
    ( str "Dune",
      str "Set in the distant future amidst a feudal interstellar society, Dune tells the story of young Paul Atreides, whose family accepts stewardship of the planet Arrakis. The only source of the most valuable substance in the universe, \x27the spice\x27, Arrakis is also one of the most dangerous planets. A stunning blend of adventure and mysticism, environmentalism and politics.") ]

/-- The placeholder returned by `descriptions.get(title, ...)` when the
title has no stored description (src/book_search_app.py line 556). -/
def no_description : List Char :=
  str "No detailed description available for this book."

/-- The description lookup performed by `view_book_details`:
`descriptions.get(title, "No detailed description available for this book.")`
(src/book_search_app.py line 556). -/
def describe (title : List Char) : List Char :=
  match descriptions.find? (fun p => p.1 == title) with
  | some p => p.2
  | none => no_description

/-- The "Foundation" row of the recommendation-mode catalog copy
(src/book_search_app.py line 381). -/
def foundation_rec : RecBook :=
  ⟨ str "Foundation", str "Isaac Asimov", str "Science Fiction",
    str "A science fiction saga about the fall and rebirth of a galactic civilization."⟩

/-- The five titles that are keys of the `descriptions` dictionary. -/
def described_titles : List (List Char) :=
  [ str "The Great Gatsby", str "1984", str "Pride and Prejudice",
    str "The Hobbit", str "Dune"]

theorem leadsWith_iff (n h : List Char) :
    leadsWith n h = true ↔ ∃ t, n ++ t = h := by
  induction n generalizing h with
  | nil =>
    simp [leadsWith]
  | cons a as ih =>
    cases h with
    | nil => simp [leadsWith]
    | cons b bs =>
      simp only [leadsWith, Bool.and_eq_true, beq_iff_eq, ih, List.cons_append,
        List.cons_eq_cons]
      constructor
      · rintro ⟨hab, t, ht⟩
        exact ⟨t, hab, ht⟩
      · rintro ⟨t, hab, ht⟩
        exact ⟨hab, t, ht⟩

theorem containsSub_iff (n h : List Char) :
    containsSub n h = true ↔ occursIn n h := by
  induction h with
  | nil =>
    simp only [containsSub, leadsWith_iff, occursIn]
    constructor
    · rintro ⟨t, ht⟩
      exact ⟨[], t, ht⟩
    · rintro ⟨p, s, hps⟩
      rcases List.append_eq_nil.mp hps with ⟨h1, h2⟩
      rcases List.append_eq_nil.mp h1 with ⟨h3, h4⟩
      exact ⟨[], by simp [h3, h4]⟩
  | cons b bs ih =>
    simp only [containsSub, Bool.or_eq_true, leadsWith_iff, ih, occursIn]
    constructor
    · rintro (⟨t, ht⟩ | ⟨p, s, hps⟩)
      · exact ⟨[], t, by simpa using ht⟩
      · exact ⟨b :: p, s, by simp [hps]⟩
    · rintro ⟨p, s, hps⟩
      cases p with
      | nil => exact Or.inl ⟨s, by simpa using hps⟩
      | cons x p =>
        rw [List.cons_append, List.cons_append, List.cons_eq_cons] at hps
        exact Or.inr ⟨p, s, hps.2⟩

instance (n h : List Char) : Decidable (occursIn n h) :=
  decidable_of_iff _ (containsSub_iff n h)

theorem toLower_of_space {c : Char} (hc : pyIsSpace c = true) :
    Char.toLower c = c := by
  simp only [pyIsSpace, Bool.or_eq_true, beq_iff_eq] at hc
  rcases hc with ((((h | h) | h) | h) | h) | h <;> subst h <;> decide

theorem pyStrip_eq_nil_of_space {q : List Char}
    (h : ∀ c ∈ q, pyIsSpace c = true) : pyStrip (pyLower q) = [] := by
  have hall : ∀ c ∈ pyLower q, pyIsSpace c = true := by
    intro c hc
    rcases List.mem_map.mp hc with ⟨c0, hc0, rfl⟩
    rw [toLower_of_space (h c0 hc0)]
    exact h c0 hc0
  unfold pyStrip
  rw [List.dropWhile_eq_nil_iff.mpr hall]
  simp

theorem search_eq_show_catalog : all_books_search = all_books_show := rfl

theorem rec_catalog_projects : all_books_rec.map
    (fun b => BookRecord.mk b.title b.author b.genre) = all_books_search := rfl

/-- Claim C1: for every query that is non-empty after lower-casing and
trimming, a catalog record is included in the search result if and only if
the normalised query is a substring of the lower-cased title, or of the
lower-cased author, or of the lower-cased genre. -/
theorem search_membership_iff (q : List Char) (hq : search_query q ≠ [])
    (r : BookRecord) (hr : r ∈ all_books_search) :
    r ∈ search_books q ↔
      (occursIn (search_query q) (pyLower r.title) ∨
       occursIn (search_query q) (pyLower r.author) ∨
       occursIn (search_query q) (pyLower r.genre)) := by
  unfold search_books
  rw [if_neg hq, List.mem_filter]
  constructor
  · rintro ⟨-, hmatch⟩
    simpa only [Bool.or_eq_true, containsSub_iff, or_assoc] using hmatch
  · intro hocc
    refine ⟨hr, ?_⟩
    simpa only [Bool.or_eq_true, containsSub_iff, or_assoc] using hocc

/-- Witness for C1 at the query "dune" and the Dune catalog record. -/
theorem search_membership_iff_witness :
    ( ⟨ str "Dune", str "Frank Herbert", str "Science Fiction"⟩ : BookRecord) ∈
      search_books (str "dune") := by
  refine (search_membership_iff (str "dune") (by decide) _ (by decide)).mpr ?_
  exact Or.inl (by decide)

/-- Claim C2: every recommended record has genre exactly the reference
genre and a title different from the reference title, at most 5 records
are returned, and the result is the first 5 qualifying records in catalog
order. -/
theorem recommend_spec (t g : List Char) :
    (∀ b ∈ fetch_recommendations t g, b.genre = g ∧ b.title ≠ t) ∧
    (fetch_recommendations t g).length ≤ 5 ∧
    fetch_recommendations t g =
      (all_books_rec.filter (fun b => b.genre == g && b.title != t)).take 5 := by
  have hdef : fetch_recommendations t g =
      if (all_books_rec.filter fun b => b.genre == g && b.title != t) = [] then []
      else (all_books_rec.filter fun b => b.genre == g && b.title != t).take 5 := rfl
  rw [hdef]
  by_cases hnil : (all_books_rec.filter fun b => b.genre == g && b.title != t) = []
  · rw [if_pos hnil, hnil, List.take_nil]
    exact ⟨by simp, by simp, rfl⟩
  · rw [if_neg hnil]
    refine ⟨?_, ?_, rfl⟩
    · intro b hb
      have hmem := (List.mem_filter.mp (List.mem_of_mem_take hb)).2
      simpa only [Bool.and_eq_true, beq_iff_eq, bne_iff_ne] using hmem
    · rw [List.length_take]
      exact min_le_left _ _

/-- Witness for C2 at the reference book ("Dune", "Science Fiction") and
the recommended Foundation record. -/
theorem recommend_spec_witness :
    (foundation_rec.genre = str "Science Fiction" ∧
     foundation_rec.title ≠ str "Dune") ∧
    (fetch_recommendations (str "Dune") (str "Science Fiction")).length ≤ 5 :=
  ⟨(recommend_spec (str "Dune") (str "Science Fiction")).1 foundation_rec (by decide),
   (recommend_spec (str "Dune") (str "Science Fiction")).2.1⟩

/-- Claim C3: a query that is empty or consists only of whitespace is
answered with the full show-all catalog, unfiltered, in catalog order. -/
theorem search_empty_query (q : List Char) (h : ∀ c ∈ q, pyIsSpace c = true) :
    search_books q = all_books_show := by
  have hq : search_query q = [] := pyStrip_eq_nil_of_space h
  unfold search_books
  rw [if_pos hq]

/-- Witness for C3 at the empty query and at a whitespace-only query. -/
theorem search_empty_query_witness :
    search_books (str "") = all_books_show ∧
    search_books (str "   ") = all_books_show :=
  ⟨search_empty_query (str "") (by decide),
   search_empty_query (str "   ") (by decide)⟩

/-- Claim C4: the description lookup returns the stored description for
an exact, case-sensitive title key, and the fixed placeholder for every
title that is not a key; in particular "1984" yields its stored text and
"Unknown Title" yields the placeholder.  The operation is a total
function: it never fails. -/
theorem describe_spec (t d : List Char) :
    ((t, d) ∈ descriptions → describe t = d) ∧
    (t ∉ descriptions.map Prod.fst → describe t = no_description) ∧
    describe (str "1984") = desc_1984 ∧
    describe (str "Unknown Title") = no_description := by
  refine ⟨?_, ?_, rfl, rfl⟩
  · intro hmem
    simp only [descriptions, List.mem_cons, List.not_mem_nil, or_false,
      Prod.mk.injEq] at hmem
    rcases hmem with ⟨ht, hd⟩ | ⟨ht, hd⟩ | ⟨ht, hd⟩ | ⟨ht, hd⟩ | ⟨ht, hd⟩ <;>
      subst ht <;> subst hd <;> rfl
  · intro hnot
    have hnone : descriptions.find? (fun p => p.1 == t) = none := by
      rw [List.find?_eq_none]
      intro p hp hbeq
      rw [beq_iff_eq] at hbeq
      exact hnot (hbeq ▸ List.mem_map_of_mem Prod.fst hp)
    unfold describe
    rw [hnone]

set_option maxRecDepth 4096 in
/-- Witness for C4 at the known key "1984" and the unknown key
"Unknown Title". -/
theorem describe_spec_witness :
    describe (str "1984") = desc_1984 ∧
    describe (str "Unknown Title") = no_description :=
  ⟨(describe_spec (str "1984") desc_1984).1 (by decide),
   (describe_spec (str "Unknown Title") []).2.1 (by decide)⟩

/-- Claim C5: for every query, the search result is a subsequence of the
full catalog: each returned record occurs in the catalog, in catalog
order, with no duplication or reordering. -/
theorem search_sublist_all (q : List Char) :
    (search_books q).Sublist all_books_show := by
  unfold search_books
  split
  · exact List.Sublist.refl _
  · exact search_eq_show_catalog ▸ List.filter_sublist _

/-- Claim C6: search is case-insensitive in its query: two queries that
agree after lower-casing (case-variants of each other) produce identical
ordered results. -/
theorem search_case_insensitive (q q' : List Char)
    (h : pyLower q = pyLower q') :
    search_books q = search_books q' := by
  unfold search_books search_query
  rw [h]

/-- Witness for C6 at the case-variant queries "DUNE" and "dune". -/
theorem search_case_insensitive_witness :
    search_books (str "DUNE") = search_books (str "dune") :=
  search_case_insensitive (str "DUNE") (str "dune") (by decide)

/-- Claim C7: when no catalog record qualifies (no record has the
reference genre besides possibly one with the reference title), the
recommendation result is empty: the fallback path substitutes no default
list. -/
theorem recommend_no_qualifier (t g : List Char)
    (h : ∀ b ∈ all_books_rec, ¬(b.genre = g ∧ b.title ≠ t)) :
    fetch_recommendations t g = [] := by
  have hnil : (all_books_rec.filter fun b => b.genre == g && b.title != t) = [] := by
    rw [List.filter_eq_nil_iff]
    intro b hb hpb
    simp only [Bool.and_eq_true, beq_iff_eq, bne_iff_ne] at hpb
    exact h b hb hpb
  have hdef : fetch_recommendations t g =
      if (all_books_rec.filter fun b => b.genre == g && b.title != t) = [] then []
      else (all_books_rec.filter fun b => b.genre == g && b.title != t).take 5 := rfl
  rw [hdef, if_pos hnil]

/-- Witness for C7: "Jane Eyre" is the only Gothic Fiction record, so
recommendations for it are empty. -/
theorem recommend_no_qualifier_witness :
    fetch_recommendations (str "Jane Eyre") (str "Gothic Fiction") = [] :=
  recommend_no_qualifier (str "Jane Eyre") (str "Gothic Fiction") (by decide)

/-- Claim C8: against the embedded catalog, recommendations for
("Dune", "Science Fiction") are exactly the one-element list containing
the Foundation record. -/
theorem recommend_dune_foundation :
    fetch_recommendations (str "Dune") (str "Science Fiction") =
      [foundation_rec] := by
  decide

/-- Claim C9: the three hardcoded catalog copies agree: the search copy
and the show-all copy are equal, the recommendation copy projected to
(title, author, genre) equals the search copy, and all list the same 15
books. -/
theorem catalog_copies_agree :
    all_books_search = all_books_show ∧
    all_books_rec.map (fun b => BookRecord.mk b.title b.author b.genre) =
      all_books_search ∧
    all_books_search.length = 15 :=
  ⟨search_eq_show_catalog, rec_catalog_projects, rfl⟩

/-- Claim C10: the description keys are exactly five of the catalog
titles; every other catalog title is described by the placeholder; in
particular the Foundation record carries a non-empty description in the
recommendation catalog copy, yet the description lookup still yields the
placeholder for it. -/
theorem descriptions_coverage :
    descriptions.map Prod.fst = described_titles ∧
    (∀ b ∈ all_books_search,
      b.title ∉ described_titles → describe b.title = no_description) ∧
    foundation_rec ∈ all_books_rec ∧
    foundation_rec.description ≠ [] ∧
    describe foundation_rec.title = no_description := by
  refine ⟨rfl, by decide, by decide, by decide, by decide⟩

/-- Witness for C10 at the Foundation row of the search catalog. -/
theorem descriptions_coverage_witness :
    describe ( ⟨ str "Foundation", str "Isaac Asimov",
      str "Science Fiction"⟩ : BookRecord).title = no_description :=
  descriptions_coverage.2.1 _ (by decide) (by decide)
